import Mathlib

set_option maxRecDepth 100000
set_option maxHeartbeats 4000000

/-!
Shallow embedding of `data/generate_sigils.py` (neural sigil generator).

The script derives 121 fixed-size binary records ("sigils") from their
indices and serializes them, after an 8-byte header, into one blob.
Components embedded below, in source order:

* `int_to_ternary`   — 5-digit ternary string codec (alphabet 0/1/T);
* `encode_phase` / `encode_breath_pattern` — 2-bit quantization of the
  four breath-phase durations, packed into one byte;
* `index_to_tier`    — index (0..120) to tier (1..9);
* `flagsFor`         — the flag computation inlined in `generate_sigil`
  (lines 128-134 of the source), factored out under its own name;
* `generate_sigil`   — one record, via `struct.pack('<6sBHBB')`;
* `generate_header`  — the 8-byte header, via `struct.pack('<IBBH')`;
* `total_data`       — header plus the 121 records in ascending order
  (the pure core of `main`, without the file/console I/O).

Python's fallible operations are modelled with `Option`: `dict[key]`
lookup (`KeyError`), `str.encode('ascii')` (`UnicodeEncodeError`) and
the range checks of `struct.pack` (`struct.error`) return `none` where
the script would raise.  Byte strings are `List Nat` with entries
< 256.  The fractional phase durations (3.5, 1.5, 2.5, 0.5 seconds)
are exact decimal values, embedded as the rationals they denote.
-/

/-- Solfeggio frequency table, tier → Hz (`SOLFEGGIO` dict; `none`
models a `KeyError` on a missing tier). -/
def SOLFEGGIO : Nat → Option Nat
  | 1 => some 174
  | 2 => some 285
  | 3 => some 396
  | 4 => some 417
  | 5 => some 528
  | 6 => some 639
  | 7 => some 741
  | 8 => some 852
  | 9 => some 963
  | _ => none

/-- Breath pattern table, tier → (inhale, hold-in, exhale, hold-out) in
seconds (`BREATH_PATTERNS` dict). -/
def BREATH_PATTERNS : Nat → Option (ℚ × ℚ × ℚ × ℚ)
  | 1 => some (4, 2, 4, 2)
  | 2 => some (mkRat 7 2, mkRat 3 2, mkRat 7 2, mkRat 3 2)
  | 3 => some (3, 1, 3, 1)
  | 4 => some (mkRat 5 2, mkRat 3 2, mkRat 5 2, mkRat 3 2)
  | 5 => some (2, 2, 2, 2)
  | 6 => some (mkRat 5 2, 1, mkRat 7 2, 1)
  | 7 => some (mkRat 3 2, mkRat 1 2, mkRat 5 2, mkRat 1 2)
  | 8 => some (2, 1, 2, 1)
  | 9 => some (1, 3, 1, 3)
  | _ => none

def FLAG_ACTIVE : Nat := 0x01

def FLAG_ANCHORED : Nat := 0x02

def FLAG_RESONANT : Nat := 0x04

def FLAG_TRIAD : Nat := 0x08

def FLAG_K_FORMATION : Nat := 0x10

/-- Digit-to-character map of `int_to_ternary`: 0→'0', 1→'1', 2→'T'. -/
def ternaryDigitChar (d : Nat) : Char :=
  if d = 0 then '0' else if d = 1 then '1' else 'T'

/-- The digit loop of `int_to_ternary`: `n` iterations of
`digit = value % 3; value //= 3`, least-significant digit first. -/
def ternaryDigitsLE : Nat → Nat → List Char
  | 0, _ => []
  | n + 1, v => ternaryDigitChar (v % 3) :: ternaryDigitsLE n (v / 3)

/-- `int_to_ternary`: 5-digit ternary string of `value`, wrapping
out-of-range inputs by `value % 243` (Python `%`, non-negative result)
and emitting digits most-significant first. -/
def int_to_ternary (value : Int) : String :=
  let v : Nat := (if value < 0 ∨ value > 242 then value.emod 243 else value).toNat
  String.mk (ternaryDigitsLE 5 v).reverse

/-- Python `int()` applied to an exact rational: truncation toward
zero. -/
def pyInt (q : ℚ) : Int :=
  if q < 0 then ⌈q⌉ else ⌊q⌋

/-- The `encode_phase` helper of `encode_breath_pattern`:
`s = int(seconds)`, then bucket 0 if `s ≤ 1`, 1 if `s ≤ 2`,
2 if `s ≤ 3`, else 3. -/
def encode_phase (seconds : ℚ) : Nat :=
  if pyInt seconds ≤ 1 then 0
  else if pyInt seconds ≤ 2 then 1
  else if pyInt seconds ≤ 3 then 2
  else 3

/-- `encode_breath_pattern`: the four 2-bit phase buckets ORed into one
byte at bit offsets 0, 2, 4, 6. -/
def encode_breath_pattern (pattern : ℚ × ℚ × ℚ × ℚ) : Nat :=
  encode_phase pattern.1 |||
  (encode_phase pattern.2.1 <<< 2) |||
  (encode_phase pattern.2.2.1 <<< 4) |||
  (encode_phase pattern.2.2.2 <<< 6)

/-- `index_to_tier`: `tier = index * 9 // 121 + 1`, then `min(tier, 9)`. -/
def index_to_tier (index : Nat) : Nat :=
  let tier := index * 9 / 121 + 1
  min tier 9

/-- The flag computation of `generate_sigil` (source lines 128-134),
factored out verbatim. -/
def flagsFor (index : Nat) : Nat :=
  let flags := FLAG_ACTIVE
  let flags := if index ∈ ([0, 60, 120] : List Nat) then flags ||| FLAG_ANCHORED else flags
  let flags := if 40 ≤ index ∧ index ≤ 50 then flags ||| FLAG_TRIAD else flags
  let flags := if 90 ≤ index ∧ index ≤ 100 then flags ||| FLAG_K_FORMATION else flags
  flags

/-- `str.encode('ascii')`: `none` models `UnicodeEncodeError` on a
non-ASCII character. -/
def ascii_encode (s : List Char) : Option (List Nat) :=
  if s.all (fun c => decide (c.toNat < 128)) then some (s.map Char.toNat) else none

/-- `struct`'s `6s` field: truncate or zero-pad the byte string to 6
bytes (never an error). -/
def pack6s (b : List Nat) : List Nat :=
  b.take 6 ++ List.replicate (6 - b.length) 0

/-- `struct`'s `B` field: one unsigned byte, `struct.error` (`none`) if
out of range. -/
def packU8 (n : Nat) : Option (List Nat) :=
  if n < 256 then some [n] else none

/-- `struct`'s `<H` field: unsigned 16-bit little-endian. -/
def packU16LE (n : Nat) : Option (List Nat) :=
  if n < 65536 then some [n % 256, n / 256] else none

/-- `struct`'s `<I` field: unsigned 32-bit little-endian. -/
def packU32LE (n : Nat) : Option (List Nat) :=
  if n < 4294967296 then
    some [n % 256, n / 256 % 256, n / 65536 % 256, n / 16777216 % 256]
  else none

/-- `generate_sigil`: binary record for one sigil,
`struct.pack('<6sBHBB', code+NUL, index, frequency, breath, flags)`. -/
def generate_sigil (index : Nat) : Option (List Nat) := do
  let code := int_to_ternary index
  let code_bytes ← ascii_encode (code.data ++ [Char.ofNat 0])
  let region_id := index
  let tier := index_to_tier index
  let frequency ← SOLFEGGIO tier
  let pattern ← BREATH_PATTERNS tier
  let breath := encode_breath_pattern pattern
  let flags := flagsFor index
  let ridB ← packU8 region_id
  let freqB ← packU16LE frequency
  let breathB ← packU8 breath
  let flagsB ← packU8 flags
  return pack6s code_bytes ++ ridB ++ freqB ++ breathB ++ flagsB

def MAGIC : Nat := 0x5347494C

def VERSION : Nat := 1

def COUNT : Nat := 121

/-- `generate_header`: `struct.pack('<IBBH', MAGIC, VERSION, COUNT, 0)`. -/
def generate_header : Option (List Nat) := do
  let checksum := 0
  let m ← packU32LE MAGIC
  let v ← packU8 VERSION
  let c ← packU8 COUNT
  let ck ← packU16LE checksum
  return m ++ v ++ c ++ ck

/-- The record-concatenation loop of `main`: records for indices
0..120 in ascending order. -/
def sigils_data : Option (List Nat) := do
  let recs ← (List.range 121).mapM generate_sigil
  return recs.flatten

/-- `total_data = header + sigils_data`, the blob `main` writes out. -/
def total_data : Option (List Nat) := do
  let h ← generate_header
  let s ← sigils_data
  return h ++ s

/-- The blob's bytes (empty if any pack step failed). -/
def blobBytes : List Nat := total_data.getD []

/-- A sigil record's bytes (empty if any pack step failed). -/
def recordBytes (index : Nat) : List Nat := (generate_sigil index).getD []

/-- The frequency serialized for an index: tier lookup into `SOLFEGGIO`. -/
def frequencyOf (index : Nat) : Nat :=
  Option.getD ( SOLFEGGIO (index_to_tier index)) 0

/-- The breath byte serialized for an index: tier lookup into
`BREATH_PATTERNS`, then `encode_breath_pattern`. -/
def breathOf (index : Nat) : Nat :=
  encode_breath_pattern ((BREATH_PATTERNS (index_to_tier index)).getD (0, 0, 0, 0))

/-- Every phase bucket fits in 2 bits. -/
theorem encode_phase_lt4 (q : ℚ) : encode_phase q < 4 := by
  simp only [encode_phase]
  split_ifs <;> omega

/-- Extracting the four 2-bit fields back out of the OR-packed byte. -/
theorem pack_extract (a b c d : Nat) (ha : a < 4) (hb : b < 4) (hc : c < 4)
    (hd : d < 4) :
    (a ||| b <<< 2 ||| c <<< 4 ||| d <<< 6) % 4 = a ∧
    (a ||| b <<< 2 ||| c <<< 4 ||| d <<< 6) / 4 % 4 = b ∧
    (a ||| b <<< 2 ||| c <<< 4 ||| d <<< 6) / 16 % 4 = c ∧
    (a ||| b <<< 2 ||| c <<< 4 ||| d <<< 6) / 64 % 4 = d := by
  have key : ∀ a b c d : Fin 4,
      (a.val ||| b.val <<< 2 ||| c.val <<< 4 ||| d.val <<< 6) % 4 = a.val ∧
      (a.val ||| b.val <<< 2 ||| c.val <<< 4 ||| d.val <<< 6) / 4 % 4 = b.val ∧
      (a.val ||| b.val <<< 2 ||| c.val <<< 4 ||| d.val <<< 6) / 16 % 4 = c.val ∧
      (a.val ||| b.val <<< 2 ||| c.val <<< 4 ||| d.val <<< 6) / 64 % 4 = d.val := by
    decide
  exact key ⟨a, ha⟩ ⟨b, hb⟩ ⟨c, hc⟩ ⟨d, hd⟩

/-- C1: evaluation of the full blob.  The header fields are exactly as
claimed (magic 0x5347494C little-endian, version 1, count 121, zero
checksum), but the blob is 1339 bytes — 8-byte header plus 121 records
of 11 bytes each — not the 1218 bytes the claim (and the script's own
docstring, which promises 10-byte records) states. -/
theorem C1_blob_eval :
    total_data.isSome = true ∧
    blobBytes.length = 1339 ∧
    blobBytes.getD 0 0 + 256 * blobBytes.getD 1 0 + 65536 * blobBytes.getD 2 0 +
      16777216 * blobBytes.getD 3 0 = 0x5347494C ∧
    blobBytes.getD 4 0 = 1 ∧ blobBytes.getD 5 0 = 121 ∧
    blobBytes.getD 6 0 = 0 ∧ blobBytes.getD 7 0 = 0 := by
  decide

/-- C2: evaluation of every record.  The fields appear in exactly the
claimed order — 5 ternary characters, a null terminator, region_id =
index, frequency as uint16 little-endian, breath byte, flags byte —
but that layout occupies 11 bytes (6+1+2+1+1), not the 10 bytes the
claim and the script's docstring state. -/
theorem C2_record_eval :
    ∀ index : Fin 121,
      (recordBytes index.val).length = 11 ∧
      recordBytes index.val =
        (int_to_ternary index.val).data.map Char.toNat ++
          [0, index.val, frequencyOf index.val % 256, frequencyOf index.val / 256,
            breathOf index.val, flagsFor index.val] := by
  decide

/-- C3: the flags byte has bit 0 always set; bit 1 exactly on indices
0, 60, 120; bit 3 exactly on 40..50; bit 4 exactly on 90..100; bit 2
(RESONANT) never; and no bits above bit 4. -/
theorem C3_flags :
    ∀ index : Fin 121,
      (flagsFor index.val).testBit 0 = true ∧
      ((flagsFor index.val).testBit 1 ↔ (index.val = 0 ∨ index.val = 60 ∨ index.val = 120)) ∧
      ((flagsFor index.val).testBit 3 ↔ (40 ≤ index.val ∧ index.val ≤ 50)) ∧
      ((flagsFor index.val).testBit 4 ↔ (90 ≤ index.val ∧ index.val ≤ 100)) ∧
      (flagsFor index.val).testBit 2 = false ∧
      flagsFor index.val < 32 := by
  decide

/-- C4: the tier map lands in [1,9], is non-decreasing, sends 0 to 1
and 120 to 9, is surjective onto {1..9}, and has convex (contiguous)
fibers, so it partitions [0,120] into 9 contiguous ranges. -/
theorem C4_tier :
    (∀ index : Fin 121, 1 ≤ index_to_tier index.val ∧ index_to_tier index.val ≤ 9) ∧
    index_to_tier 0 = 1 ∧ index_to_tier 120 = 9 ∧
    (∀ i j : Fin 121, i ≤ j → index_to_tier i.val ≤ index_to_tier j.val) ∧
    (∀ t : Fin 9, ∃ index : Fin 121, index_to_tier index.val = t.val + 1) ∧
    (∀ i j k : Fin 121, i ≤ j → j ≤ k →
      index_to_tier i.val = index_to_tier k.val →
      index_to_tier j.val = index_to_tier i.val) := by
  have mono : ∀ i j : Fin 121, i ≤ j → index_to_tier i.val ≤ index_to_tier j.val := by
    decide
  refine ⟨by decide, by decide, by decide, mono, by decide, ?_⟩
  intro i j k hij hjk hik
  have h1 := mono i j hij
  have h2 := mono j k hjk
  omega

theorem C4_tier_witness : index_to_tier 3 ≤ index_to_tier 100 :=
  C4_tier.2.2.2.1 ⟨3, by omega⟩ ⟨100, by omega⟩ (by decide)

/-- C5 counterexample: the unclamped formula at index 120 gives
exactly 9 — it does not exceed 9, so the clamp is not what keeps
tierOf(120) in range. -/
theorem C5_counterexample :
    120 * 9 / 121 + 1 = 9 ∧ 120 * 9 / 121 + 1 ≤ 9 ∧
    index_to_tier 120 = 120 * 9 / 121 + 1 := by
  decide

/-- C5 (amended): the `min(tier, 9)` clamp is a defensive no-op on the
domain [0,120]: the unclamped value `index * 9 / 121 + 1` is already at
most 9 everywhere (equal to 9 at index 120), so the clamp never changes
the result. -/
theorem C5_clamp_redundant :
    ∀ index : Fin 121,
      index.val * 9 / 121 + 1 ≤ 9 ∧
      index_to_tier index.val = index.val * 9 / 121 + 1 := by
  decide

/-- C6: for every index in [0,120] the ternary code is exactly 5
characters over the alphabet {0, 1, T}. -/
theorem C6_ternary_shape :
    ∀ index : Fin 121,
      (int_to_ternary index.val).length = 5 ∧
      (int_to_ternary index.val).data.all
        (fun c => c == '0' || c == '1' || c == 'T') = true := by
  decide

/-- C7: the ternary codec sends 0 to "00000" and 242 to "TTTTT", and
the 243 inputs of [0,242] map to 243 pairwise distinct strings. -/
theorem C7_ternary_codec :
    int_to_ternary 0 = "00000" ∧ int_to_ternary 242 = "TTTTT" ∧
    ((List.range 243).map (fun v => int_to_ternary v)).Nodup := by
  decide

/-- C8: phase quantization hits the claimed buckets at the boundary
inputs (2.0 s → 1, 3.0 s → 2, 0.5 s → 0, 5 s → 3); on non-negative
durations the truncate-then-bucket rule is equivalent to bucket 0 on
[0,2), 1 on [2,3), 2 on [3,4), 3 on [4,∞); and the packed byte carries
the inhale, hold-in, exhale, hold-out buckets at bit offsets 0, 2, 4, 6
respectively. -/
theorem C8_breath_encoding :
    encode_phase 2 = 1 ∧ encode_phase 3 = 2 ∧
    encode_phase (mkRat 1 2) = 0 ∧ encode_phase 5 = 3 ∧
    (∀ q : ℚ, 0 ≤ q →
      ((encode_phase q = 0 ↔ q < 2) ∧ (encode_phase q = 1 ↔ 2 ≤ q ∧ q < 3) ∧
       (encode_phase q = 2 ↔ 3 ≤ q ∧ q < 4) ∧ (encode_phase q = 3 ↔ 4 ≤ q))) ∧
    (∀ p : ℚ × ℚ × ℚ × ℚ,
      encode_breath_pattern p % 4 = encode_phase p.1 ∧
      encode_breath_pattern p / 4 % 4 = encode_phase p.2.1 ∧
      encode_breath_pattern p / 16 % 4 = encode_phase p.2.2.1 ∧
      encode_breath_pattern p / 64 % 4 = encode_phase p.2.2.2) := by
  refine ⟨by decide, by decide, by decide, by decide, ?_, ?_⟩
  · intro q hq
    have hfl : pyInt q = ⌊q⌋ := if_neg (not_lt.mpr hq)
    have h2 : (2 : ℚ) ≤ q ↔ 2 ≤ ⌊q⌋ := by rw [Int.le_floor]; norm_num
    have h3 : (3 : ℚ) ≤ q ↔ 3 ≤ ⌊q⌋ := by rw [Int.le_floor]; norm_num
    have h4 : (4 : ℚ) ≤ q ↔ 4 ≤ ⌊q⌋ := by rw [Int.le_floor]; norm_num
    have l2 : q < 2 ↔ ⌊q⌋ < 2 := by rw [Int.floor_lt]; norm_num
    have l3 : q < 3 ↔ ⌊q⌋ < 3 := by rw [Int.floor_lt]; norm_num
    have l4 : q < 4 ↔ ⌊q⌋ < 4 := by rw [Int.floor_lt]; norm_num
    simp only [encode_phase, hfl]
    rw [l2, l3, l4, h2, h3, h4]
    split_ifs <;> refine ⟨?_, ?_, ?_, ?_⟩ <;> simp <;> omega
  · intro p
    simp only [encode_breath_pattern]
    exact pack_extract _ _ _ _ (encode_phase_lt4 p.1) (encode_phase_lt4 p.2.1)
      (encode_phase_lt4 p.2.2.1) (encode_phase_lt4 p.2.2.2)

theorem C8_breath_encoding_witness :
    encode_phase (mkRat 5 2) = 1 ↔ 2 ≤ (mkRat 5 2 : ℚ) ∧ (mkRat 5 2 : ℚ) < 3 :=
  (C8_breath_encoding.2.2.2.2.1 (mkRat 5 2) (by decide)).2.1

/-- C9: in the record for index 0 the region_id byte is 0, the
frequency field decodes little-endian to 174, and the flags byte is
exactly ACTIVE | ANCHORED = 0x03. -/
theorem C9_record_index0 :
    (generate_sigil 0).isSome = true ∧
    (recordBytes 0).getD 6 255 = 0 ∧
    (recordBytes 0).getD 7 0 + 256 * (recordBytes 0).getD 8 0 = 174 ∧
    (recordBytes 0).getD 10 0 = 3 ∧
    flagsFor 0 = (FLAG_ACTIVE ||| FLAG_ANCHORED) ∧
    flagsFor 0 = 0x03 := by
  decide

/-- C10: every field handed to the packer is in range for its slot, so
serialization never hits a failure branch: 6 ASCII code bytes (no
truncation), region_id < 256, frequency ≤ 963 < 2^16, breath byte
< 256, flags ≤ 0x1B. -/
theorem C10_fields_in_range :
    ∀ index : Fin 121,
      (generate_sigil index.val).isSome = true ∧
      ((int_to_ternary index.val).data ++ [Char.ofNat 0]).length = 6 ∧
      ((int_to_ternary index.val).data ++ [Char.ofNat 0]).all
        (fun c => decide (c.toNat < 128)) = true ∧
      index.val < 256 ∧
      frequencyOf index.val ≤ 963 ∧
      breathOf index.val < 256 ∧
      flagsFor index.val ≤ 0x1B := by
  decide
